import Mathlib

/-!
Shallow embedding of the ethernet bootstrap tasklet
(mbed-mesh-api `ethernet_tasklet.c`) and of the directory-handle helper
(`FileSystemLike.cpp`), with theorems settling the spec claims.

External calls (timer service, dispatcher, network stack, status callback)
are modelled as an effect trace; results returned by external primitives
(`eventOS_event_handler_create`, `arm_nwk_interface_down`,
`arm_net_address_get`) are passed in as parameters, since the code only
branches on them.
-/

/-- Embeds `tasklet_state_t` from the source. -/
inductive TaskletState
  | created
  | initialized
  | bootstrapStarted
  | bootstrapFailed
  | bootstrapReady
deriving DecidableEq, Repr

/-- The two `mesh_connection_status_t` values this file uses. -/
inductive MeshConnectionStatus
  | connected
  | disconnected
deriving DecidableEq, Repr

/-- Embeds the `arm_nwk_interface_status_type_e` outcomes distinguished by
`enet_tasklet_parse_network_event`; `other` carries any unrecognized code. -/
inductive NwkStatus
  | ready
  | addrAllocFail
  | connectionDown
  | other (code : Int)
deriving DecidableEq, Repr

/-- Embeds the `arm_library_event_type_e` categories distinguished by `enet_tasklet_main`. -/
inductive ArmEventType
  | nwkInterfaceEvent
  | taskletInitEvent
  | systemTimerEvent
  | applicationEvent
  | other (code : Int)
deriving DecidableEq, Repr

/-- Embeds `arm_event_s`, restricted to the fields the tasklet reads.
`event_data` is kept in decoded form (the C code casts the int payload to
the status enum; the numeric coding lives in an external header). -/
structure ArmEvent where
  event_type : ArmEventType
  event_id : Int
  event_data : NwkStatus
  receiver : Int
deriving DecidableEq, Repr

/-- Externally visible actions of the tasklet, recorded as a trace. -/
inductive Effect
  | notify (status : MeshConnectionStatus)
  | timerRequest (event_id : Int) (category : ArmEventType) (owner_id : Int) (delay_ms : Nat)
  | timerCancel (event_id : Int) (owner_id : Int)
  | interfaceUp (interface_id : Int)
  | interfaceDown (interface_id : Int)
  | sendConnectEvent (tasklet_id : Int)
  | handlerCreate
  | macCreate
  | ethernetInit
  | bootstrapConfigSet (interface_id : Int)
  | netAddressGet (interface_id : Int)
  | writeAddressText
deriving DecidableEq, Repr

/-- Embeds `tasklet_data_str_t`. The callback pointer is modelled by its identity
(`none` = NULL). The three `int8_t` ids are modelled as `Int`; no arithmetic
is performed on them so the 8-bit range is irrelevant. -/
structure TaskletData where
  mesh_api_cb : Option Nat
  tasklet_state : TaskletState
  node_main_tasklet_id : Int
  network_interface_id : Int
  tasklet : Int
deriving DecidableEq, Repr

/-- Embeds `#define TIMER_EVENT_START_BOOTSTRAP 1`. -/
def TIMER_EVENT_START_BOOTSTRAP : Int := 1

/-- Embeds `#define INVALID_INTERFACE_ID (-1)`. -/
def INVALID_INTERFACE_ID : Int := -1

/-- The value `APPL_EVENT_CONNECT` comes from an external mesh-system header; its
numeric value is not used by any claim. -/
def APPL_EVENT_CONNECT : Int := 0

/-- Embeds `enet_tasklet_network_state_changed`: invoke the registered callback
if non-NULL, otherwise drop the notification. -/
def enet_tasklet_network_state_changed (d : TaskletData) (status : MeshConnectionStatus) :
    List Effect :=
  match d.mesh_api_cb with
  | some _ => [Effect.notify status]
  | none => []

/-- Embeds `enet_tasklet_parse_network_event`: the switch on the bootstrap outcome,
followed by the unconditional retry-timer arm whenever the resulting state
is not BOOTSTRAP_READY. -/
def enet_tasklet_parse_network_event (d : TaskletData) (status : NwkStatus) :
    TaskletData × List Effect :=
  let step :=
    match status with
    | NwkStatus.ready =>
        if d.tasklet_state ≠ TaskletState.bootstrapReady then
          let d1 := { d with tasklet_state := TaskletState.bootstrapReady }
          (d1, enet_tasklet_network_state_changed d1 MeshConnectionStatus.connected)
        else (d, [])
    | NwkStatus.addrAllocFail => ({ d with tasklet_state := TaskletState.bootstrapFailed }, [])
    | NwkStatus.connectionDown => ({ d with tasklet_state := TaskletState.bootstrapFailed }, [])
    | NwkStatus.other _ => (d, [])
  if step.1.tasklet_state ≠ TaskletState.bootstrapReady then
    (step.1, step.2 ++ [Effect.timerRequest TIMER_EVENT_START_BOOTSTRAP
        ArmEventType.systemTimerEvent step.1.node_main_tasklet_id 5000])
  else step

/-- Embeds `enet_tasklet_configure_and_connect_to_network`: calls
`arm_nwk_interface_up` on the stored interface id, unguarded. -/
def enet_tasklet_configure_and_connect_to_network (d : TaskletData) : List Effect :=
  [Effect.interfaceUp d.network_interface_id]

/-- Embeds `enet_tasklet_main`: the event-handler entry point. -/
def enet_tasklet_main (d : TaskletData) (event : ArmEvent) : TaskletData × List Effect :=
  match event.event_type with
  | ArmEventType.nwkInterfaceEvent => enet_tasklet_parse_network_event d event.event_data
  | ArmEventType.taskletInitEvent =>
      let d1 := { d with node_main_tasklet_id := event.receiver }
      (d1, [Effect.sendConnectEvent d1.tasklet])
  | ArmEventType.systemTimerEvent =>
      let cancel := Effect.timerCancel event.event_id d.node_main_tasklet_id
      if event.event_id = TIMER_EVENT_START_BOOTSTRAP then
        (d, cancel :: enet_tasklet_configure_and_connect_to_network d)
      else (d, [cancel])
  | ArmEventType.applicationEvent =>
      if event.event_id = APPL_EVENT_CONNECT then
        (d, enet_tasklet_configure_and_connect_to_network d)
      else (d, [])
  | ArmEventType.other _ => (d, [])

/-- Deliver a list of Interface-status events in order, accumulating effects. -/
def runNetworkEvents : TaskletData → List NwkStatus → TaskletData × List Effect
  | d, [] => (d, [])
  | d, s :: rest =>
      let r := enet_tasklet_parse_network_event d s
      let r2 := runNetworkEvents r.1 rest
      (r2.1, r.2 ++ r2.2)

/-- Deliver a list of dispatcher events to `enet_tasklet_main` in order. -/
def runMain : TaskletData → List ArmEvent → TaskletData × List Effect
  | d, [] => (d, [])
  | d, e :: rest =>
      let r := enet_tasklet_main d e
      let r2 := runMain r.1 rest
      (r2.1, r.2 ++ r2.2)

/-- Number of callback notifications in an effect trace. -/
def countNotify (effs : List Effect) : Nat :=
  effs.countP fun e =>
    match e with
    | Effect.notify _ => true
    | _ => false

/-- Number of timer-arm requests in an effect trace. -/
def countTimerRequests (effs : List Effect) : Nat :=
  effs.countP fun e =>
    match e with
    | Effect.timerRequest _ _ _ _ => true
    | _ => false

/-- Number of delivered system-timer events in an event list (each delivery
consumes one previously armed one-shot timer). -/
def timerDeliveries (evs : List ArmEvent) : Nat :=
  evs.countP fun e =>
    match e.event_type with
    | ArmEventType.systemTimerEvent => true
    | _ => false

/-- Retry-timer instances still pending after a run: timers armed by the
handler minus timers that fired (were delivered back). -/
def pendingRetryTimers (d : TaskletData) (evs : List ArmEvent) : Int :=
  (countTimerRequests (runMain d evs).2 : Int) - (timerDeliveries evs : Int)

/-- Repeated Ready outcomes while already BOOTSTRAP_READY are no-ops. -/
theorem run_ready_noop (d : TaskletData) (k : Nat)
    (hs : d.tasklet_state = TaskletState.bootstrapReady) :
    runNetworkEvents d (List.replicate k NwkStatus.ready) = (d, []) := by
  induction k with
  | zero => simp [runNetworkEvents]
  | succ n ih =>
      simp [List.replicate_succ, runNetworkEvents,
        enet_tasklet_parse_network_event, hs, ih]

/-- Claim C1: a consecutive run of Ready outcomes (with a callback
registered and starting from a state other than BOOTSTRAP_READY) sets the
state to BOOTSTRAP_READY and fires exactly one Connected notification: the
whole effect trace is that single notification. -/
theorem enet_ready_fires_connected_once (d : TaskletData) (c : Nat) (k : Nat)
    (hcb : d.mesh_api_cb = some c)
    (hs : d.tasklet_state ≠ TaskletState.bootstrapReady) :
    runNetworkEvents d (List.replicate (k + 1) NwkStatus.ready) =
      ({ d with tasklet_state := TaskletState.bootstrapReady },
       [Effect.notify MeshConnectionStatus.connected]) := by
  have h1 : enet_tasklet_parse_network_event d NwkStatus.ready =
      ({ d with tasklet_state := TaskletState.bootstrapReady },
       [Effect.notify MeshConnectionStatus.connected]) := by
    simp [enet_tasklet_parse_network_event, enet_tasklet_network_state_changed, hs, hcb]
  have h2 : runNetworkEvents { d with tasklet_state := TaskletState.bootstrapReady }
      (List.replicate k NwkStatus.ready) =
      ({ d with tasklet_state := TaskletState.bootstrapReady }, []) :=
    run_ready_noop _ k rfl
  simp [List.replicate_succ, runNetworkEvents, h1, h2]

/-- Witness for C1 at a concrete state and three Ready events. -/
theorem enet_ready_fires_connected_once_witness :
    runNetworkEvents
      { mesh_api_cb := some 7, tasklet_state := TaskletState.bootstrapStarted,
        node_main_tasklet_id := 2, network_interface_id := 3, tasklet := 2 }
      (List.replicate 3 NwkStatus.ready) =
      ({ mesh_api_cb := some 7, tasklet_state := TaskletState.bootstrapReady,
         node_main_tasklet_id := 2, network_interface_id := 3, tasklet := 2 },
       [Effect.notify MeshConnectionStatus.connected]) :=
  enet_ready_fires_connected_once
    { mesh_api_cb := some 7, tasklet_state := TaskletState.bootstrapStarted,
      node_main_tasklet_id := 2, network_interface_id := 3, tasklet := 2 }
    7 2 rfl (by decide)

/-- Embeds `enet_tasklet_connect` (on a non-NULL registration).
`handler_create_result` is the value returned by the external
`eventOS_event_handler_create` call on the first-connect path (negative on
failure); the reconnect path never makes that call. -/
def enet_tasklet_connect (d : TaskletData) (callback : Option Nat) (nwk_interface_id : Int)
    (handler_create_result : Int) : TaskletData × List Effect × Int :=
  let tasklet_id := d.tasklet
  let dz : TaskletData :=
    { mesh_api_cb := none, tasklet_state := TaskletState.created,
      node_main_tasklet_id := 0, network_interface_id := 0, tasklet := 0 }
  let d1 := { dz with mesh_api_cb := callback, network_interface_id := nwk_interface_id, tasklet_state := TaskletState.initialized }
  if d.tasklet_state = TaskletState.created then
    let d2 := { d1 with tasklet := handler_create_result }
    if handler_create_result < 0 then (d2, [Effect.handlerCreate], handler_create_result)
    else (d2, [Effect.handlerCreate], 0)
  else
    ({ d1 with tasklet := tasklet_id }, [Effect.sendConnectEvent tasklet_id], 0)

/-- Embeds `enet_tasklet_disconnect`. It takes the global registration pointer
(`none` = NULL) and contains the code's explicit NULL guard.
`down_result` is the value returned by the external `arm_nwk_interface_down`. -/
def enet_tasklet_disconnect (g : Option TaskletData) (send_cb : Bool) (down_result : Int) :
    Option TaskletData × List Effect × Int :=
  match g with
  | none => (none, [], -1)
  | some t =>
      if t.network_interface_id ≠ INVALID_INTERFACE_ID then
        let t1 := { t with network_interface_id := INVALID_INTERFACE_ID }
        let notifyEffs :=
          if send_cb then
            enet_tasklet_network_state_changed t1 MeshConnectionStatus.disconnected
          else []
        (some { t1 with mesh_api_cb := none },
         Effect.interfaceDown t.network_interface_id :: notifyEffs, down_result)
      else
        (some { t with mesh_api_cb := none }, [], -1)

/-- Embeds `enet_tasklet_get_ip_address` (on a non-NULL registration).
`addr_get_result` is the value returned by the external
`arm_net_address_get` (0 = a global-scope address is assigned); the
short-circuit `&&` means it is not even queried when `len < 40`. -/
def enet_tasklet_get_ip_address (d : TaskletData) (len : Int) (addr_get_result : Int) :
    Int × List Effect :=
  if 40 ≤ len then
    if addr_get_result = 0 then
      (0, [Effect.netAddressGet d.network_interface_id, Effect.writeAddressText])
    else (-1, [Effect.netAddressGet d.network_interface_id])
  else (-1, [])

/-- Embeds `enet_tasklet_network_init` (on a non-NULL registration).
`mac_already` tells whether the MAC adapter was already constructed;
`new_interface_id` is the id returned by the external
`arm_nwk_interface_ethernet_init`. -/
def enet_tasklet_network_init (d : TaskletData) (mac_already : Bool) (new_interface_id : Int) :
    TaskletData × List Effect × Int :=
  if d.network_interface_id ≠ -1 then (d, [], d.network_interface_id)
  else
    let macEffs := if mac_already then [] else [Effect.macCreate]
    ({ d with network_interface_id := new_interface_id },
     macEffs ++ [Effect.ethernetInit, Effect.bootstrapConfigSet new_interface_id],
     new_interface_id)

/-- Embeds `enet_tasklet_init`: allocates the registration on first call, setting
only `tasklet_state` and `network_interface_id` (`ns_dyn_mem_alloc` does not
zero memory, so the remaining fields keep the arbitrary contents `alloc`). -/
def enet_tasklet_init (g : Option TaskletData) (alloc : TaskletData) : Option TaskletData :=
  match g with
  | none => some { alloc with tasklet_state := TaskletState.created, network_interface_id := INVALID_INTERFACE_ID }
  | some d => some d

/-- Global-level `enet_tasklet_connect`: the C code dereferences
`tasklet_data_ptr` with no NULL check, so a NULL registration (`none`) is a
null-pointer dereference, modelled as `none`. -/
def enet_tasklet_connect_entry (g : Option TaskletData) (callback : Option Nat)
    (nwk_interface_id : Int) (handler_create_result : Int) :
    Option (TaskletData × List Effect × Int) :=
  match g with
  | none => none
  | some d => some (enet_tasklet_connect d callback nwk_interface_id handler_create_result)

/-- Global-level `enet_tasklet_network_init`: dereferences the registration
pointer with no NULL check. -/
def enet_tasklet_network_init_entry (g : Option TaskletData) (mac_already : Bool)
    (new_interface_id : Int) : Option (TaskletData × List Effect × Int) :=
  match g with
  | none => none
  | some d => some (enet_tasklet_network_init d mac_already new_interface_id)

/-- Global-level `enet_tasklet_get_ip_address`. The registration pointer is
dereferenced only inside the second operand of the short-circuit `&&`
(`arm_net_address_get(tasklet_data_ptr->network_interface_id, ...)`), so a
call with `len < 40` returns -1 without ever reading the pointer; with
`len >= 40` a NULL registration is a null-pointer dereference, modelled as
`none`. -/
def enet_tasklet_get_ip_address_entry (g : Option TaskletData) (len : Int)
    (addr_get_result : Int) : Option (Int × List Effect) :=
  if 40 ≤ len then
    match g with
    | none => none
    | some d => some (enet_tasklet_get_ip_address d len addr_get_result)
  else some (-1, [])

/-- Claim C2 (amended): every AddressAllocationFailed or ConnectionDown
outcome sets the state to BOOTSTRAP_FAILED and arms exactly one retry timer
with the fixed 5000 ms delay, keyed to the stored owner task id and the
dedicated retry-timer event id (the whole effect trace of the event is that
single arm). -/
theorem enet_failure_sets_failed_and_arms_retry (d : TaskletData) (status : NwkStatus)
    (hfail : status = NwkStatus.addrAllocFail ∨ status = NwkStatus.connectionDown) :
    enet_tasklet_parse_network_event d status =
      ({ d with tasklet_state := TaskletState.bootstrapFailed },
       [Effect.timerRequest TIMER_EVENT_START_BOOTSTRAP ArmEventType.systemTimerEvent
          d.node_main_tasklet_id 5000]) := by
  rcases hfail with h | h <;> subst h <;>
    simp [enet_tasklet_parse_network_event]

/-- Witness for C2's amended theorem at a concrete state. -/
theorem enet_failure_sets_failed_and_arms_retry_witness :
    enet_tasklet_parse_network_event
      { mesh_api_cb := some 1, tasklet_state := TaskletState.bootstrapStarted,
        node_main_tasklet_id := 4, network_interface_id := 3, tasklet := 4 }
      NwkStatus.connectionDown =
      ({ mesh_api_cb := some 1, tasklet_state := TaskletState.bootstrapFailed,
         node_main_tasklet_id := 4, network_interface_id := 3, tasklet := 4 },
       [Effect.timerRequest TIMER_EVENT_START_BOOTSTRAP ArmEventType.systemTimerEvent 4 5000]) :=
  enet_failure_sets_failed_and_arms_retry
    { mesh_api_cb := some 1, tasklet_state := TaskletState.bootstrapStarted,
      node_main_tasklet_id := 4, network_interface_id := 3, tasklet := 4 }
    NwkStatus.connectionDown (Or.inr rfl)

/-- Counterexample to C2 as stated: two consecutive ConnectionDown events
with no intervening timer delivery arm two retry-timer instances, so more
than one instance is pending at once. -/
theorem enet_retry_timer_double_pending :
    pendingRetryTimers
      { mesh_api_cb := some 1, tasklet_state := TaskletState.bootstrapStarted,
        node_main_tasklet_id := 4, network_interface_id := 3, tasklet := 4 }
      [{ event_type := ArmEventType.nwkInterfaceEvent, event_id := 0,
         event_data := NwkStatus.connectionDown, receiver := 4 },
       { event_type := ArmEventType.nwkInterfaceEvent, event_id := 0,
         event_data := NwkStatus.connectionDown, receiver := 4 }] = 2 := by decide

/-- Claim C3: connect on a registration whose state is not Created (the
reconnect path) does not register a handler with the dispatcher; it resets
the fields, restores the saved tasklet id, sends the internal start-connect
event to that handler and returns 0. -/
theorem enet_connect_reconnect_spec (d : TaskletData) (cb : Option Nat) (ifId hcr : Int)
    (hrc : d.tasklet_state ≠ TaskletState.created) :
    enet_tasklet_connect d cb ifId hcr =
      ({ mesh_api_cb := cb, tasklet_state := TaskletState.initialized,
         node_main_tasklet_id := 0, network_interface_id := ifId, tasklet := d.tasklet },
       [Effect.sendConnectEvent d.tasklet], 0) ∧
    Effect.handlerCreate ∉ (enet_tasklet_connect d cb ifId hcr).2.1 := by
  have h : enet_tasklet_connect d cb ifId hcr =
      ({ mesh_api_cb := cb, tasklet_state := TaskletState.initialized,
         node_main_tasklet_id := 0, network_interface_id := ifId, tasklet := d.tasklet },
       [Effect.sendConnectEvent d.tasklet], 0) := by
    simp [enet_tasklet_connect, hrc]
  refine ⟨h, ?_⟩
  rw [h]
  simp

/-- Witness for C3 at a concrete reconnecting registration. -/
theorem enet_connect_reconnect_spec_witness :
    enet_tasklet_connect
      { mesh_api_cb := some 9, tasklet_state := TaskletState.bootstrapFailed,
        node_main_tasklet_id := 4, network_interface_id := 3, tasklet := 4 }
      (some 5) 3 0 =
      ({ mesh_api_cb := some 5, tasklet_state := TaskletState.initialized,
         node_main_tasklet_id := 0, network_interface_id := 3, tasklet := 4 },
       [Effect.sendConnectEvent 4], 0) ∧
    Effect.handlerCreate ∉
      (enet_tasklet_connect
        { mesh_api_cb := some 9, tasklet_state := TaskletState.bootstrapFailed,
          node_main_tasklet_id := 4, network_interface_id := 3, tasklet := 4 }
        (some 5) 3 0).2.1 :=
  enet_connect_reconnect_spec
    { mesh_api_cb := some 9, tasklet_state := TaskletState.bootstrapFailed,
      node_main_tasklet_id := 4, network_interface_id := 3, tasklet := 4 }
    (some 5) 3 0 (by decide)

/-- Claim C4: disconnect on a connected registration (valid interface id,
callback registered) issues interface-down, leaves the interface id at the
invalid sentinel, clears the callback, and fires exactly one Disconnected
notification when send_cb is true and zero when it is false. -/
theorem enet_disconnect_spec (t : TaskletData) (c : Nat) (send_cb : Bool) (down_result : Int)
    (hif : t.network_interface_id ≠ INVALID_INTERFACE_ID)
    (hcb : t.mesh_api_cb = some c) :
    enet_tasklet_disconnect (some t) send_cb down_result =
      (some { t with network_interface_id := INVALID_INTERFACE_ID, mesh_api_cb := none },
       Effect.interfaceDown t.network_interface_id ::
         (if send_cb then [Effect.notify MeshConnectionStatus.disconnected] else []),
       down_result) ∧
    countNotify (enet_tasklet_disconnect (some t) send_cb down_result).2.1 =
      (if send_cb then 1 else 0) := by
  have h : enet_tasklet_disconnect (some t) send_cb down_result =
      (some { t with network_interface_id := INVALID_INTERFACE_ID, mesh_api_cb := none },
       Effect.interfaceDown t.network_interface_id ::
         (if send_cb then [Effect.notify MeshConnectionStatus.disconnected] else []),
       down_result) := by
    simp [enet_tasklet_disconnect, hif, enet_tasklet_network_state_changed, hcb]
  refine ⟨h, ?_⟩
  rw [h]
  cases send_cb <;> simp [countNotify]

/-- Witness for C4 at a concrete connected registration, send_cb = true. -/
theorem enet_disconnect_spec_witness :
    enet_tasklet_disconnect
      (some { mesh_api_cb := some 5, tasklet_state := TaskletState.bootstrapReady,
              node_main_tasklet_id := 4, network_interface_id := 3, tasklet := 4 })
      true 0 =
      (some { mesh_api_cb := none, tasklet_state := TaskletState.bootstrapReady,
              node_main_tasklet_id := 4, network_interface_id := INVALID_INTERFACE_ID,
              tasklet := 4 },
       [Effect.interfaceDown 3, Effect.notify MeshConnectionStatus.disconnected], 0) ∧
    countNotify (enet_tasklet_disconnect
      (some { mesh_api_cb := some 5, tasklet_state := TaskletState.bootstrapReady,
              node_main_tasklet_id := 4, network_interface_id := 3, tasklet := 4 })
      true 0).2.1 = 1 :=
  enet_disconnect_spec
    { mesh_api_cb := some 5, tasklet_state := TaskletState.bootstrapReady,
      node_main_tasklet_id := 4, network_interface_id := 3, tasklet := 4 }
    5 true 0 (by decide) rfl

/-- Claim C5: on every Timer event the handler first cancels the timer
unconditionally (for every timer event id, keyed to the stored owner id),
invokes interface-up on the stored interface id exactly when the event id
equals the retry-timer id, and performs no state-field transition. -/
theorem enet_timer_event_spec (d : TaskletData) (event : ArmEvent)
    (ht : event.event_type = ArmEventType.systemTimerEvent) :
    (enet_tasklet_main d event).1 = d ∧
    (enet_tasklet_main d event).2 =
      Effect.timerCancel event.event_id d.node_main_tasklet_id ::
        (if event.event_id = TIMER_EVENT_START_BOOTSTRAP then
          [Effect.interfaceUp d.network_interface_id] else []) ∧
    (Effect.interfaceUp d.network_interface_id ∈ (enet_tasklet_main d event).2 ↔
      event.event_id = TIMER_EVENT_START_BOOTSTRAP) := by
  by_cases hid : event.event_id = TIMER_EVENT_START_BOOTSTRAP <;>
    simp [enet_tasklet_main, ht, hid, enet_tasklet_configure_and_connect_to_network]

/-- Witness for C5 at a concrete state and a retry-timer event. -/
theorem enet_timer_event_spec_witness :
    (enet_tasklet_main
      { mesh_api_cb := some 5, tasklet_state := TaskletState.bootstrapFailed,
        node_main_tasklet_id := 4, network_interface_id := 3, tasklet := 4 }
      { event_type := ArmEventType.systemTimerEvent, event_id := 1,
        event_data := NwkStatus.other 0, receiver := 4 }).1 =
      { mesh_api_cb := some 5, tasklet_state := TaskletState.bootstrapFailed,
        node_main_tasklet_id := 4, network_interface_id := 3, tasklet := 4 } ∧
    (enet_tasklet_main
      { mesh_api_cb := some 5, tasklet_state := TaskletState.bootstrapFailed,
        node_main_tasklet_id := 4, network_interface_id := 3, tasklet := 4 }
      { event_type := ArmEventType.systemTimerEvent, event_id := 1,
        event_data := NwkStatus.other 0, receiver := 4 }).2 =
      Effect.timerCancel 1 4 ::
        (if (1 : Int) = TIMER_EVENT_START_BOOTSTRAP then [Effect.interfaceUp 3] else []) ∧
    (Effect.interfaceUp 3 ∈
      (enet_tasklet_main
        { mesh_api_cb := some 5, tasklet_state := TaskletState.bootstrapFailed,
          node_main_tasklet_id := 4, network_interface_id := 3, tasklet := 4 }
        { event_type := ArmEventType.systemTimerEvent, event_id := 1,
          event_data := NwkStatus.other 0, receiver := 4 }).2 ↔
      (1 : Int) = TIMER_EVENT_START_BOOTSTRAP) :=
  enet_timer_event_spec
    { mesh_api_cb := some 5, tasklet_state := TaskletState.bootstrapFailed,
      node_main_tasklet_id := 4, network_interface_id := 3, tasklet := 4 }
    { event_type := ArmEventType.systemTimerEvent, event_id := 1,
      event_data := NwkStatus.other 0, receiver := 4 }
    rfl

/-- Claim C6 (amended): an unrecognized bootstrap outcome leaves the whole
registration unchanged and invokes no callback, but the shared
post-processing still arms the 5-second retry timer whenever the current
state is not BOOTSTRAP_READY; only when the state is BOOTSTRAP_READY is no
external action taken. -/
theorem enet_unknown_event_spec (d : TaskletData) (code : Int) :
    enet_tasklet_parse_network_event d (NwkStatus.other code) =
      (d, if d.tasklet_state = TaskletState.bootstrapReady then []
          else [Effect.timerRequest TIMER_EVENT_START_BOOTSTRAP ArmEventType.systemTimerEvent
                  d.node_main_tasklet_id 5000]) := by
  by_cases hs : d.tasklet_state = TaskletState.bootstrapReady <;>
    simp [enet_tasklet_parse_network_event, hs]

/-- Counterexample to C6 as stated: an unrecognized outcome delivered while
the state is BOOTSTRAP_FAILED does take an external action, arming the
retry timer. -/
theorem enet_unknown_event_arms_timer :
    (enet_tasklet_parse_network_event
      { mesh_api_cb := some 1, tasklet_state := TaskletState.bootstrapFailed,
        node_main_tasklet_id := 4, network_interface_id := 3, tasklet := 4 }
      (NwkStatus.other 99)).2 =
      [Effect.timerRequest TIMER_EVENT_START_BOOTSTRAP ArmEventType.systemTimerEvent 4 5000] := by
  decide

/-- Claim C7 (amended): when the retry timer fires after disconnect (the
stored interface id is the invalid sentinel), the handler performs no
state-field change but does pass the invalid id straight to the
interface-up primitive; tolerance is delegated to that primitive. -/
theorem enet_timer_after_disconnect_spec (d : TaskletData) (event : ArmEvent)
    (ht : event.event_type = ArmEventType.systemTimerEvent)
    (hid : event.event_id = TIMER_EVENT_START_BOOTSTRAP)
    (hif : d.network_interface_id = INVALID_INTERFACE_ID) :
    enet_tasklet_main d event =
      (d, [Effect.timerCancel TIMER_EVENT_START_BOOTSTRAP d.node_main_tasklet_id,
           Effect.interfaceUp INVALID_INTERFACE_ID]) := by
  simp [enet_tasklet_main, ht, hid, hif, enet_tasklet_configure_and_connect_to_network]

/-- Witness for C7's amended theorem at a concrete post-disconnect state. -/
theorem enet_timer_after_disconnect_spec_witness :
    enet_tasklet_main
      { mesh_api_cb := none, tasklet_state := TaskletState.bootstrapFailed,
        node_main_tasklet_id := 4, network_interface_id := INVALID_INTERFACE_ID, tasklet := 4 }
      { event_type := ArmEventType.systemTimerEvent, event_id := TIMER_EVENT_START_BOOTSTRAP,
        event_data := NwkStatus.other 0, receiver := 4 } =
      ({ mesh_api_cb := none, tasklet_state := TaskletState.bootstrapFailed,
         node_main_tasklet_id := 4, network_interface_id := INVALID_INTERFACE_ID, tasklet := 4 },
       [Effect.timerCancel TIMER_EVENT_START_BOOTSTRAP 4,
        Effect.interfaceUp INVALID_INTERFACE_ID]) :=
  enet_timer_after_disconnect_spec
    { mesh_api_cb := none, tasklet_state := TaskletState.bootstrapFailed,
      node_main_tasklet_id := 4, network_interface_id := INVALID_INTERFACE_ID, tasklet := 4 }
    { event_type := ArmEventType.systemTimerEvent, event_id := TIMER_EVENT_START_BOOTSTRAP,
      event_data := NwkStatus.other 0, receiver := 4 }
    rfl rfl rfl

/-- Counterexample to C7 as stated: after disconnect the firing retry timer
makes the handler pass the invalid sentinel id to the interface-up
primitive. -/
theorem enet_timer_after_disconnect_passes_invalid :
    Effect.interfaceUp INVALID_INTERFACE_ID ∈
      (enet_tasklet_main
        { mesh_api_cb := none, tasklet_state := TaskletState.bootstrapFailed,
          node_main_tasklet_id := 4, network_interface_id := INVALID_INTERFACE_ID, tasklet := 4 }
        { event_type := ArmEventType.systemTimerEvent, event_id := TIMER_EVENT_START_BOOTSTRAP,
          event_data := NwkStatus.other 0, receiver := 4 }).2 := by decide

/-- Claim C8 (amended): capacity below 40 fails (returning -1) regardless of
address availability and without even querying the address; capacity at
least 40 with a global-scope address assigned writes the textual form and
returns 0; with no address assigned it returns the same -1 error code. -/
theorem enet_get_ip_address_spec (d : TaskletData) (len agr : Int) :
    (len < 40 → enet_tasklet_get_ip_address d len agr = (-1, [])) ∧
    (40 ≤ len → agr = 0 →
      enet_tasklet_get_ip_address d len agr =
        (0, [Effect.netAddressGet d.network_interface_id, Effect.writeAddressText])) ∧
    (40 ≤ len → agr ≠ 0 →
      enet_tasklet_get_ip_address d len agr =
        (-1, [Effect.netAddressGet d.network_interface_id])) := by
  refine ⟨fun h => ?_, fun h h0 => ?_, fun h h0 => ?_⟩
  · have h40 : ¬ (40 : Int) ≤ len := not_le.mpr h
    simp [enet_tasklet_get_ip_address, h40]
  · simp [enet_tasklet_get_ip_address, h, h0]
  · simp [enet_tasklet_get_ip_address, h, h0]

/-- Witness for C8's amended theorem: capacity 39 fails even with an
address assigned, and capacity 64 with an address assigned succeeds. -/
theorem enet_get_ip_address_spec_witness :
    enet_tasklet_get_ip_address
      { mesh_api_cb := some 5, tasklet_state := TaskletState.bootstrapReady,
        node_main_tasklet_id := 4, network_interface_id := 3, tasklet := 4 } 39 0 = (-1, []) ∧
    enet_tasklet_get_ip_address
      { mesh_api_cb := some 5, tasklet_state := TaskletState.bootstrapReady,
        node_main_tasklet_id := 4, network_interface_id := 3, tasklet := 4 } 64 0 =
      (0, [Effect.netAddressGet 3, Effect.writeAddressText]) :=
  ⟨(enet_get_ip_address_spec
      { mesh_api_cb := some 5, tasklet_state := TaskletState.bootstrapReady,
        node_main_tasklet_id := 4, network_interface_id := 3, tasklet := 4 } 39 0).1 (by decide),
   (enet_get_ip_address_spec
      { mesh_api_cb := some 5, tasklet_state := TaskletState.bootstrapReady,
        node_main_tasklet_id := 4, network_interface_id := 3, tasklet := 4 } 64 0).2.1
     (by decide) rfl⟩

/-- Counterexample to C8 as stated: the insufficient-capacity failure and
the no-address-assigned failure return the identical error code -1, so they
are not distinct errors. -/
theorem enet_get_ip_failures_share_error_code :
    (enet_tasklet_get_ip_address
      { mesh_api_cb := some 5, tasklet_state := TaskletState.bootstrapReady,
        node_main_tasklet_id := 4, network_interface_id := 3, tasklet := 4 } 39 0).1 = -1 ∧
    (enet_tasklet_get_ip_address
      { mesh_api_cb := some 5, tasklet_state := TaskletState.bootstrapReady,
        node_main_tasklet_id := 4, network_interface_id := 3, tasklet := 4 } 64 1).1 = -1 ∧
    (enet_tasklet_get_ip_address
      { mesh_api_cb := some 5, tasklet_state := TaskletState.bootstrapReady,
        node_main_tasklet_id := 4, network_interface_id := 3, tasklet := 4 } 39 0).1 =
    (enet_tasklet_get_ip_address
      { mesh_api_cb := some 5, tasklet_state := TaskletState.bootstrapReady,
        node_main_tasklet_id := 4, network_interface_id := 3, tasklet := 4 } 64 1).1 := by
  decide

/-- Claim C9 (amended): with a NULL registration (`none`), connect and
network-init always dereference the null pointer (modelled as `none`);
get-ip-address dereferences it exactly when the capacity is at least 40,
while a call with capacity below 40 short-circuits and returns -1 without
reading the pointer; disconnect is the only entry point that guards and
returns -1 with no external action. -/
theorem enet_null_registration_behavior (cb : Option Nat)
    (ifId hcr newIf len agr down_result : Int) (mac_already send_cb : Bool) :
    enet_tasklet_connect_entry none cb ifId hcr = none ∧
    enet_tasklet_network_init_entry none mac_already newIf = none ∧
    (40 ≤ len → enet_tasklet_get_ip_address_entry none len agr = none) ∧
    (len < 40 → enet_tasklet_get_ip_address_entry none len agr = some (-1, [])) ∧
    (enet_tasklet_disconnect none send_cb down_result).2.2 = -1 ∧
    (enet_tasklet_disconnect none send_cb down_result).2.1 = [] := by
  refine ⟨rfl, rfl, fun h => ?_, fun h => ?_, rfl, rfl⟩
  · simp [enet_tasklet_get_ip_address_entry, h]
  · have h40 : ¬ (40 : Int) ≤ len := not_le.mpr h
    simp [enet_tasklet_get_ip_address_entry, h40]

/-- Witness for C9's amended theorem: concrete pre-init calls, one with
sufficient and one with insufficient capacity. -/
theorem enet_null_registration_behavior_witness :
    enet_tasklet_connect_entry none (some 5) 3 0 = none ∧
    enet_tasklet_get_ip_address_entry none 40 0 = none ∧
    enet_tasklet_get_ip_address_entry none 39 0 = some (-1, []) ∧
    (enet_tasklet_disconnect none true 0).2.2 = -1 :=
  have h40 := enet_null_registration_behavior (some 5) 3 0 7 40 0 0 true true
  have h39 := enet_null_registration_behavior (some 5) 3 0 7 39 0 0 true true
  ⟨h40.1, h40.2.2.1 (by decide), h39.2.2.2.1 (by decide), h40.2.2.2.2.1⟩

/-- Counterexample to C9 as stated: calling get-ip-address before init with
capacity 39 does not dereference the NULL registration pointer; the
short-circuit capacity check fails first and the call simply returns -1. -/
theorem enet_get_ip_null_no_deref_below_capacity :
    enet_tasklet_get_ip_address_entry none 39 0 = some (-1, []) ∧
    enet_tasklet_get_ip_address_entry none 39 0 ≠ none := by decide

/-- NAME_MAX is the platform limit used by the `strncpy` into
`cur_entry.d_name`; its value comes from an external header and no claim
depends on it. -/
def NAME_MAX : Nat := 255

/-- Modelled from the spec: `FileBase::get`, the external global object
registry lookup (its source is not under src/). Per the spec it is a
stateless wrapper over the registry, returning the n-th registered object
or NULL. The position properties proved below hold for any lookup result. -/
def FileBase.get (registry : List String) (n : Int) : Option String :=
  if 0 ≤ n then registry[n.toNat]? else none

/-- The `BaseDirHandle` fields: current position `n` and the `cur_entry`
name buffer. -/
structure BaseDirHandle where
  n : Int
  cur_entry : String
deriving DecidableEq, Repr

/-- The `BaseDirHandle()` constructor: position 0 and zero-initialized
entry. -/
def BaseDirHandle.new : BaseDirHandle := { n := 0, cur_entry := "" }

/-- Embeds `BaseDirHandle::readdir`: NULL lookup returns NULL and leaves
the handle unchanged; otherwise the position advances by one and the entry
name is copied (truncated at NAME_MAX) into `cur_entry`, a pointer to which
is returned. -/
def BaseDirHandle.readdir (registry : List String) (h : BaseDirHandle) :
    Option String × BaseDirHandle :=
  match FileBase.get registry h.n with
  | none => (none, h)
  | some name =>
      let entry := name.take NAME_MAX
      (some entry, { n := h.n + 1, cur_entry := entry })

/-- Embeds `BaseDirHandle::telldir`. -/
def BaseDirHandle.telldir (h : BaseDirHandle) : Int := h.n

/-- Embeds `BaseDirHandle::seekdir`. -/
def BaseDirHandle.seekdir (h : BaseDirHandle) (offset : Int) : BaseDirHandle :=
  { h with n := offset }

/-- Embeds `BaseDirHandle::rewinddir`. -/
def BaseDirHandle.rewinddir (h : BaseDirHandle) : BaseDirHandle :=
  { h with n := 0 }

/-- Embeds `FileSystemLike::opendir`: returns a fresh `BaseDirHandle`. -/
def FileSystemLike.opendir : BaseDirHandle := BaseDirHandle.new

/-- Claim C10: a directory handle starts at position 0 and returns to 0
after rewinddir; telldir right after seekdir(o) returns o; a readdir that
returns an entry advances the position by exactly one, and a readdir that
returns NULL leaves it unchanged. -/
theorem dir_handle_position_spec (registry : List String) (h : BaseDirHandle) (o : Int) :
    FileSystemLike.opendir.n = 0 ∧
    h.rewinddir.n = 0 ∧
    (h.seekdir o).telldir = o ∧
    (∀ e h2, BaseDirHandle.readdir registry h = (some e, h2) → h2.n = h.n + 1) ∧
    (∀ h2, BaseDirHandle.readdir registry h = (none, h2) → h2.n = h.n) := by
  refine ⟨rfl, rfl, rfl, ?_, ?_⟩
  · intro e h2 he
    unfold BaseDirHandle.readdir at he
    cases hg : FileBase.get registry h.n with
    | none => rw [hg] at he; simp at he
    | some name =>
        rw [hg] at he
        have h2eq : h2 = { n := h.n + 1, cur_entry := name.take NAME_MAX } := by
          exact (Prod.mk.injEq _ _ _ _ ▸ he).2.symm
        rw [h2eq]
  · intro h2 he
    unfold BaseDirHandle.readdir at he
    cases hg : FileBase.get registry h.n with
    | none =>
        rw [hg] at he
        have h2eq : h2 = h := (Prod.mk.injEq _ _ _ _ ▸ he).2.symm
        rw [h2eq]
    | some name => rw [hg] at he; simp at he

/-- Witness for C10 at a concrete registry and handle. -/
theorem dir_handle_position_spec_witness :
    (({ n := 4, cur_entry := "" } : BaseDirHandle).seekdir 7).telldir = 7 ∧
    ({ n := (0 : Int) + 1, cur_entry := "a".take NAME_MAX } : BaseDirHandle).n = (0 : Int) + 1 :=
  have hs := dir_handle_position_spec ["a"] { n := 0, cur_entry := "" } 7
  have hs4 := dir_handle_position_spec ["a"] { n := 4, cur_entry := "" } 7
  ⟨hs4.2.2.1,
   hs.2.2.2.1 ("a".take NAME_MAX) { n := (0 : Int) + 1, cur_entry := "a".take NAME_MAX } rfl⟩
